import Mathlib

/-!
Verification development for the hisaabkitaab browser client.

The development shallowly embeds the client's billing-total computation
(EditInvoicePage / NewPurchasePage), the session/store context
(AuthContext.tsx) and the API client's header construction (api.ts) as
executable Lean definitions, and proves the specification's claims about
them.

Conventions of the embedding:
* JavaScript numbers are rationals (ℚ); the embedding has no NaN, so
  `x || 0` on a number is the identity and is inlined as such.
* `parseFloat` is modelled on its decimal fragment (optional sign,
  digits, optional fractional digits, longest prefix); exponents and
  `Infinity` literals are not used by the program and are not modelled.
* `JSON.parse` is modelled by an executable recursive-descent parser on
  the JSON fragment without escape sequences or exponents, which covers
  every string the program itself persists.
* A thrown JavaScript exception is `Except.error`.
-/

/-- The whitespace characters skipped by parseFloat and JSON.parse. -/
def jsWs (c : Char) : Bool :=
  c = ' ' || c = '\t' || c = '\n' || c = '\r'

/-- Numeric value of a list of decimal digits, most significant first. -/
def digitsToNat (ds : List Char) : ℕ :=
  ds.foldl (fun a c => 10 * a + (c.toNat - 48)) 0

/-- The rational denoted by an integer digit part and a fractional digit part,
that is `intPart + fracPart / 10 ^ fracPart.length` as one reduced fraction. -/
def decimalOfDigits (intPart fracPart : List Char) : ℚ :=
  mkRat (Int.ofNat (digitsToNat intPart * 10 ^ fracPart.length + digitsToNat fracPart))
    (10 ^ fracPart.length)

/-- Parse an unsigned decimal literal `digits[.digits]` as a longest prefix;
fails when no digit is present at all (JavaScript returns NaN there). -/
def parseDecimal (cs : List Char) : Option (ℚ × List Char) :=
  let ip := cs.takeWhile (fun c => c.isDigit)
  let rest := cs.dropWhile (fun c => c.isDigit)
  match rest with
  | '.' :: rest2 =>
    let fp := rest2.takeWhile (fun c => c.isDigit)
    let rest3 := rest2.dropWhile (fun c => c.isDigit)
    if ip.isEmpty && fp.isEmpty then none
    else some (decimalOfDigits ip fp, rest3)
  | _ => if ip.isEmpty then none else some (decimalOfDigits ip [], rest)

/-- Model of JavaScript `parseFloat` on finite decimal inputs: skip leading
whitespace, optional sign, then the longest decimal prefix; `none` is NaN. -/
def jsParseFloat (s : String) : Option ℚ :=
  match s.data.dropWhile jsWs with
  | '-' :: cs => (parseDecimal cs).map (fun p => -p.1)
  | '+' :: cs => (parseDecimal cs).map (fun p => p.1)
  | cs => (parseDecimal cs).map (fun p => p.1)

/-- Model of `parseFloat(s) || 0`: NaN (and 0 itself) collapse to 0. -/
def jsNumOr0 (s : String) : ℚ :=
  (jsParseFloat s).getD 0

/-- Model of `s || d` on strings: the empty string is falsy. -/
def jsOrString (s d : String) : String :=
  if s = "" then d else s

/-- Model of `s.trim()`: strip leading and trailing whitespace. -/
def jsTrim (s : String) : String :=
  String.mk (((s.data.dropWhile jsWs).reverse.dropWhile jsWs).reverse)

/-- JSON values produced by `JSON.parse`. -/
inductive JsVal where
  | null
  | bool (b : Bool)
  | num (q : ℚ)
  | str (s : String)
  | arr (items : List JsVal)
  | obj (fields : List (String × JsVal))

/-- Parse the body of a JSON string after its opening quote (no escapes). -/
def parseJString (cs : List Char) : Option (String × List Char) :=
  let content := cs.takeWhile (fun c => c ≠ '"' && c ≠ '\\')
  let rest := cs.dropWhile (fun c => c ≠ '"' && c ≠ '\\')
  match rest with
  | '"' :: rest2 => some (String.mk content, rest2)
  | _ => none

mutual

/-- Fuel-indexed recursive-descent parser for a JSON value. -/
def parseJVal : ℕ → List Char → Option (JsVal × List Char)
  | 0, _ => none
  | Nat.succ fuel, cs =>
    match cs.dropWhile jsWs with
    | 'n' :: 'u' :: 'l' :: 'l' :: rest => some (.null, rest)
    | 't' :: 'r' :: 'u' :: 'e' :: rest => some (.bool true, rest)
    | 'f' :: 'a' :: 'l' :: 's' :: 'e' :: rest => some (.bool false, rest)
    | '"' :: rest => (parseJString rest).map (fun p => (.str p.1, p.2))
    | '[' :: rest =>
      (match rest.dropWhile jsWs with
       | ']' :: rest2 => some (.arr [], rest2)
       | _ => (parseJItems fuel rest).map (fun p => (.arr p.1, p.2)))
    | '\x7b' :: rest =>
      (match rest.dropWhile jsWs with
       | '\x7d' :: rest2 => some (.obj [], rest2)
       | _ => (parseJFields fuel rest).map (fun p => (.obj p.1, p.2)))
    | '-' :: rest => (parseDecimal rest).map (fun p => (.num (-p.1), p.2))
    | rest => (parseDecimal rest).map (fun p => (.num p.1, p.2))

/-- Parse the comma-separated items of a non-empty JSON array. -/
def parseJItems : ℕ → List Char → Option (List JsVal × List Char)
  | 0, _ => none
  | Nat.succ fuel, cs =>
    match parseJVal fuel cs with
    | none => none
    | some (v, rest) =>
      match rest.dropWhile jsWs with
      | ',' :: rest2 =>
        (parseJItems fuel rest2).map (fun p => (v :: p.1, p.2))
      | ']' :: rest2 => some ([v], rest2)
      | _ => none

/-- Parse the comma-separated fields of a non-empty JSON object. -/
def parseJFields : ℕ → List Char → Option (List (String × JsVal) × List Char)
  | 0, _ => none
  | Nat.succ fuel, cs =>
    match cs.dropWhile jsWs with
    | '"' :: rest =>
      (match parseJString rest with
       | none => none
       | some (k, rest2) =>
         match rest2.dropWhile jsWs with
         | ':' :: rest3 =>
           (match parseJVal fuel rest3 with
            | none => none
            | some (v, rest4) =>
              match rest4.dropWhile jsWs with
              | ',' :: rest5 =>
                (parseJFields fuel rest5).map (fun p => ((k, v) :: p.1, p.2))
              | '\x7d' :: rest5 => some ([(k, v)], rest5)
              | _ => none)
         | _ => none)
    | _ => none

end

/-- Model of `JSON.parse`: `none` is a thrown SyntaxError. -/
def parseJson (s : String) : Option JsVal :=
  match parseJVal (2 * s.length + 2) s.data with
  | some (v, rest) => if rest.dropWhile jsWs = [] then some v else none
  | none => none

/-- Property access on a parsed JSON value: reading a property of `null`
throws a TypeError (`Except.error`); on any other primitive the property is
undefined (`none`, the value is boxed); on an object it is the field when
present. -/
def jsMember (j : JsVal) (k : String) : Except Unit (Option JsVal) :=
  match j with
  | .null => .error ()
  | .obj fs => .ok (fs.lookup k)
  | _ => .ok none

/-- JavaScript truthiness of a parsed JSON value. -/
def jsTruthy : JsVal → Bool
  | .null => false
  | .bool b => b
  | .num q => q ≠ 0
  | .str s => s ≠ ""
  | .arr _ => true
  | .obj _ => true

/-!
Billing total engine: embedding of the derived-total computation shared by
EditInvoicePage (src/unnamed/part_004) and NewPurchasePage.tsx.  A form line
carries product_id (a number, or the empty string when no product is picked,
modelled as none), quantity and unit_price.  JavaScript reads
`!l.product_id`, so the id 0 is also falsy and is modelled as such. -/

/-- A line of the invoice / purchase form. -/
structure Line where
  product_id : Option ℕ
  quantity : ℚ
  unit_price : String
deriving DecidableEq

/-- Truthiness of `l.product_id`: present and non-zero. -/
def lineIncluded (l : Line) : Bool :=
  match l.product_id with
  | some n => n ≠ 0
  | none => false

/-- The value a line contributes when included:
`(l.quantity || 0) * (parseFloat(l.unit_price || "0") || 0)`. -/
def lineValue (l : Line) : ℚ :=
  l.quantity * jsNumOr0 (jsOrString l.unit_price "0")

/-- `subtotal`: the reduce over the form lines, skipping lines whose
`product_id` is falsy. -/
def subtotal (lines : List Line) : ℚ :=
  lines.foldl (fun sum l => if lineIncluded l then sum + lineValue l else sum) 0

/-- The two values of the `discountType` state, `"percent" | "amount"`. -/
inductive DiscountType where
  | percent
  | amount
deriving DecidableEq

/-- `discountAmount`: blank (after trim) discount value means no discount,
otherwise `parseFloat(discountValue) || 0` is applied as a percentage of the
subtotal or as a fixed amount. -/
def discountAmount (discountValue : String) (discountType : DiscountType)
    (subtotal : ℚ) : ℚ :=
  if jsTrim discountValue = "" then 0
  else if discountType = DiscountType.percent then subtotal * jsNumOr0 discountValue / 100
  else jsNumOr0 discountValue

/-- `roundoffAmount`: blank (after trim) roundoff field means 0, otherwise
`parseFloat(roundoff) || 0`. -/
def roundoffAmount (roundoff : String) : ℚ :=
  if jsTrim roundoff = "" then 0 else jsNumOr0 roundoff

/-- `grandTotal`: `Math.max(0, subtotal - discountAmount) + roundoffAmount`. -/
def grandTotal (subtotal discountAmt roundoffAmt : ℚ) : ℚ :=
  max 0 (subtotal - discountAmt) + roundoffAmt

/-- The whole derived-total pipeline from the raw form state. -/
def computeGrandTotal (lines : List Line) (discountValue : String)
    (discountType : DiscountType) (roundoff : String) : ℚ :=
  grandTotal (subtotal lines)
    (discountAmount discountValue discountType (subtotal lines))
    (roundoffAmount roundoff)

/-!
Session / store context: embedding of AuthContext.tsx.  The three
localStorage keys the program uses are modelled as the `Storage` record;
a missing key is `none`.  `window.dispatchEvent` appends to an explicit
event trace, so "exactly one notification" is visible as the trace growing
by exactly one element. -/

/-- The `Store` interface of AuthContext.tsx. -/
structure Store where
  id : ℕ
  name : String
  code : String
  organization_id : ℕ
deriving DecidableEq

/-- The `Organization` interface of AuthContext.tsx. -/
structure Organization where
  id : ℕ
  name : String
  logo_url : Option String
deriving DecidableEq

/-- The three roles of the `User` interface. -/
inductive Role where
  | store_worker
  | store_manager
  | org_admin
deriving DecidableEq

/-- The `User` interface of AuthContext.tsx. -/
structure User where
  id : ℕ
  name : String
  email : String
  role : Role
  organization : Organization
  store : Option Store
deriving DecidableEq

/-- The localStorage keys used by the program. -/
structure Storage where
  auth_token : Option String
  auth_user : Option String
  current_store : Option String
deriving DecidableEq

/-- Events dispatched on `window`; the payload is `event.detail`. -/
inductive PageEvent where
  | storeChanged (detail : Option Store)
deriving DecidableEq

/-- The in-memory provider state plus the persisted storage and the trace of
dispatched events. -/
structure AppState where
  user : Option User
  token : Option String
  currentStore : Option Store
  availableStores : List Store
  storage : Storage
  events : List PageEvent
deriving DecidableEq

/-- A JSON string literal (the program's names contain no escapes). -/
def jsonQuote (s : String) : String :=
  "\"" ++ s ++ "\""

/-- `JSON.stringify` of a `Store` value, fields in interface order. -/
def jsonStringifyStore (s : Store) : String :=
  "\x7b" ++ jsonQuote "id" ++ ":" ++ toString s.id ++ ","
    ++ jsonQuote "name" ++ ":" ++ jsonQuote s.name ++ ","
    ++ jsonQuote "code" ++ ":" ++ jsonQuote s.code ++ ","
    ++ jsonQuote "organization_id" ++ ":" ++ toString s.organization_id ++ "\x7d"

/-- `JSON.stringify` of an `Organization` value. -/
def jsonStringifyOrganization (o : Organization) : String :=
  "\x7b" ++ jsonQuote "id" ++ ":" ++ toString o.id ++ ","
    ++ jsonQuote "name" ++ ":" ++ jsonQuote o.name ++ ","
    ++ jsonQuote "logo_url" ++ ":"
    ++ (match o.logo_url with
        | some u => jsonQuote u
        | none => "null") ++ "\x7d"

/-- The `role` string of a user. -/
def roleString : Role → String
  | .store_worker => "store_worker"
  | .store_manager => "store_manager"
  | .org_admin => "org_admin"

/-- `JSON.stringify` of a `User` value, fields in interface order. -/
def jsonStringifyUser (u : User) : String :=
  "\x7b" ++ jsonQuote "id" ++ ":" ++ toString u.id ++ ","
    ++ jsonQuote "name" ++ ":" ++ jsonQuote u.name ++ ","
    ++ jsonQuote "email" ++ ":" ++ jsonQuote u.email ++ ","
    ++ jsonQuote "role" ++ ":" ++ jsonQuote (roleString u.role) ++ ","
    ++ jsonQuote "organization" ++ ":" ++ jsonStringifyOrganization u.organization ++ ","
    ++ jsonQuote "store" ++ ":"
    ++ (match u.store with
        | some s => jsonStringifyStore s
        | none => "null") ++ "\x7d"

/-- `handleSetCurrentStore`: set the in-memory store, persist it (or remove
the key when the argument is null) and dispatch one `storeChanged` event
carrying the argument. -/
def handleSetCurrentStore (st : AppState) (store : Option Store) : AppState :=
  { st with
    currentStore := store
    storage :=
      match store with
      | some s => { st.storage with current_store := some (jsonStringifyStore s) }
      | none => { st.storage with current_store := none }
    events := st.events ++ [PageEvent.storeChanged store] }

/-- The body of a failing `/auth/login` response; the backend reports the
reason in its `error` field, a string when present. -/
structure LoginFailureBody where
  error : Option String
deriving DecidableEq

/-- A resolved `/auth/login` response: 2xx with the destructured
token-and-user payload, or non-2xx with its JSON error body. -/
inductive LoginResponse where
  | okResp (token : String) (user : User)
  | errResp (body : LoginFailureBody)
deriving DecidableEq

/-- `error.error || 'Login failed'`: the error field when truthy, otherwise
the fallback text. -/
def loginErrorMessage (body : LoginFailureBody) : String :=
  match body.error with
  | some s => if s = "" then "Login failed" else s
  | none => "Login failed"

/-- `login`: a non-OK response throws the server-reported message before any
state is touched; an OK response stores the token and user in memory and in
localStorage, sets the current store to `newUser.store || null`, and writes
the `current_store` key only when the user carries a store.  The trailing
`fetchAvailableStores()` network call is the separate step
`fetchStoresOkUpdate` below. -/
def login (st : AppState) (resp : LoginResponse) : Except String AppState :=
  match resp with
  | .errResp body => .error (loginErrorMessage body)
  | .okResp newToken newUser =>
    .ok { st with
      token := some newToken
      user := some newUser
      currentStore := newUser.store
      storage :=
        { st.storage with
          auth_token := some newToken
          auth_user := some (jsonStringifyUser newUser)
          current_store :=
            match newUser.store with
            | some s => some (jsonStringifyStore s)
            | none => st.storage.current_store } }

/-- The caller-visible state after `login`: a thrown exception leaves the
caller's state exactly as it was. -/
def loginFinalState (st : AppState) (resp : LoginResponse) : AppState :=
  match login st resp with
  | .error _ => st
  | .ok st2 => st2

/-- `fetchAvailableStores`, OK branch: store the fetched list; when no store
is selected and the list is non-empty, a user owning a profile store gets the
list entry with the matching id (nothing when absent), and a user without one
gets the single entry when the list has exactly one.  The selection uses the
raw state setter, so no `storeChanged` event is dispatched here. -/
def fetchStoresOkUpdate (st : AppState) (stores : List Store) : AppState :=
  let st1 := { st with availableStores := stores }
  if st.currentStore = none ∧ stores ≠ [] then
    match st.user.bind (fun u => u.store) with
    | some ustore =>
      match stores.find? (fun s => s.id = ustore.id) with
      | some userStore =>
        { st1 with
          currentStore := some userStore
          storage := { st1.storage with
            current_store := some (jsonStringifyStore userStore) } }
      | none => st1
    | none =>
      match stores with
      | [s0] =>
        { st1 with
          currentStore := some s0
          storage := { st1.storage with
            current_store := some (jsonStringifyStore s0) } }
      | _ => st1
  else st1

/-- The state rehydrated by the mount effect: the raw token together with the
JSON values `JSON.parse` produced for the user and the current store. -/
structure RehydratedSession where
  token : Option String
  userJson : Option JsVal
  storeJson : Option JsVal

/-- The anonymous session: nothing restored. -/
def anonymousSession : RehydratedSession :=
  { token := none, userJson := none, storeJson := none }

/-- `JSON.parse(storedUser).store` guarded by truthiness: the access itself
throws a TypeError when the parsed user is `null`; otherwise the field is
kept when truthy. -/
def userStoreField (uj : JsVal) : Except Unit (Option JsVal) :=
  match jsMember uj "store" with
  | .error e => .error e
  | .ok (some v) => .ok (if jsTruthy v then some v else none)
  | .ok none => .ok none

/-- The mount effect of AuthProvider: a falsy stored token or user leaves the
session anonymous; otherwise the stored user (and the stored store, when its
key is truthy) pass through `JSON.parse`, whose failure is a thrown
SyntaxError (`Except.error`); with no truthy stored store the user's own
`store` field is read — an access that throws a TypeError when the parsed
user is `null` — and used when truthy. -/
def rehydrate (sto : Storage) : Except Unit RehydratedSession :=
  match sto.auth_token, sto.auth_user with
  | some tok, some usr =>
    if tok = "" ∨ usr = "" then .ok anonymousSession
    else
      match parseJson usr with
      | none => .error ()
      | some uj =>
        match sto.current_store with
        | some ss =>
          if ss = "" then
            match userStoreField uj with
            | .error e => .error e
            | .ok sj => .ok { token := some tok, userJson := some uj, storeJson := sj }
          else
            match parseJson ss with
            | none => .error ()
            | some sj => .ok { token := some tok, userJson := some uj, storeJson := some sj }
        | none =>
          match userStoreField uj with
          | .error e => .error e
          | .ok sj => .ok { token := some tok, userJson := some uj, storeJson := sj }
  | _, _ => .ok anonymousSession

/-!
API client: embedding of the header construction of `request` in api.ts.
The fetch options are built as
headers colon brace Content-Type, spread of options.headers brace, then the
spread of the whole options object, so an options object that itself carries
a headers field replaces the merged header object entirely. -/

/-- The `RequestInit` options the api methods pass to `request`. -/
structure RequestOptions where
  method : Option String
  headers : Option (List (String × String))
  body : Option String
deriving DecidableEq

/-- The headers `request` finally passes to fetch. -/
def requestHeaders (options : RequestOptions) : List (String × String) :=
  match options.headers with
  | some hs => hs
  | none => [("Content-Type", "application/json")]

/-- Options of `api.listProducts`: a plain GET, no explicit options. -/
def listProductsOptions : RequestOptions :=
  { method := none, headers := none, body := none }

/-- Options of `api.createProduct`: POST with a JSON body, no headers. -/
def createProductOptions (payload : String) : RequestOptions :=
  { method := some "POST", headers := none, body := some payload }

/-- Options of `api.deleteProduct`: DELETE, no headers. -/
def deleteProductOptions : RequestOptions :=
  { method := some "DELETE", headers := none, body := none }

/-- The headers of the one authenticated fetch in AuthContext.tsx,
`fetchAvailableStores`. -/
def fetchAvailableStoresHeaders (token : String) : List (String × String) :=
  [("Authorization", "Bearer " ++ token), ("Content-Type", "application/json")]

/-!
Helper lemmas and concrete fixtures shared by the claim theorems. -/

/-- The subtotal fold with an arbitrary accumulator is the accumulator plus
the sum of the values of the included lines. -/
theorem subtotal_foldl_acc (ls : List Line) (a : ℚ) :
    ls.foldl (fun sum l => if lineIncluded l then sum + lineValue l else sum) a
      = a + ((ls.filter lineIncluded).map lineValue).sum := by
  induction ls generalizing a with
  | nil => simp
  | cons l ls ih =>
    by_cases h : lineIncluded l
    · simp [List.foldl, h, ih, List.filter_cons, add_assoc]
    · simp [List.foldl, h, ih, List.filter_cons]

/-- `subtotal` in closed form: the sum over the included lines. -/
theorem subtotal_eq_sum (ls : List Line) :
    subtotal ls = ((ls.filter lineIncluded).map lineValue).sum := by
  rw [subtotal, subtotal_foldl_acc, zero_add]

/-- Concrete store fixture with id 5. -/
def storeA : Store := { id := 5, name := "Main", code := "MAIN", organization_id := 1 }

/-- Concrete store fixture with id 7. -/
def storeB : Store := { id := 7, name := "Branch", code := "BR", organization_id := 1 }

/-- Concrete organization fixture. -/
def org1 : Organization := { id := 1, name := "Acme", logo_url := none }

/-- A user whose profile carries no store. -/
def userNoStore : User :=
  { id := 2, name := "Asha", email := "asha@acme.test", role := Role.org_admin
    organization := org1, store := none }

/-- A user whose profile carries `storeA`. -/
def userWithStoreA : User :=
  { id := 3, name := "Ravi", email := "ravi@acme.test", role := Role.store_worker
    organization := org1, store := some storeA }

/-- Storage with all three keys absent. -/
def emptyStorage : Storage :=
  { auth_token := none, auth_user := none, current_store := none }

/-- A concrete included line: product 1, quantity 2, price "5". -/
def lineP1 : Line := { product_id := some 1, quantity := 2, unit_price := "5" }

/-- A concrete line with no product reference. -/
def lineNoRef : Line := { product_id := none, quantity := 4, unit_price := "9" }

/-- A concrete included line: product 1, quantity 1, price "2". -/
def lineQ1 : Line := { product_id := some 1, quantity := 1, unit_price := "2" }

/-- A concrete included line: product 2, quantity 3, price "4". -/
def lineQ2 : Line := { product_id := some 2, quantity := 3, unit_price := "4" }

/-- The anonymous provider state. -/
def anonState : AppState :=
  { user := none, token := none, currentStore := none, availableStores := []
    storage := emptyStorage, events := [] }

/-- `jsNumOr0` on the literal `"10"`. -/
theorem jsNumOr0_ten : jsNumOr0 "10" = 10 := by
  have h : jsParseFloat "10" = some (mkRat 10 1) := by decide
  rw [jsNumOr0, h]
  norm_num [Rat.mkRat_eq_div]

/-- `jsNumOr0` on the literal `"150"`. -/
theorem jsNumOr0_oneFifty : jsNumOr0 "150" = 150 := by
  have h : jsParseFloat "150" = some (mkRat 150 1) := by decide
  rw [jsNumOr0, h]
  norm_num [Rat.mkRat_eq_div]

/-- `jsNumOr0` on the literal `"-0.40"`. -/
theorem jsNumOr0_minusPointFour : jsNumOr0 "-0.40" = -(2/5 : ℚ) := by
  have h : jsParseFloat "-0.40" = some (-(mkRat 2 5)) := by decide
  rw [jsNumOr0, h]
  norm_num [Rat.mkRat_eq_div]

/-- C1: the grand total first derives the discount amount, clamps the
discounted base at zero, then adds the roundoff unclamped; for subtotal 100,
a 10-percent discount and roundoff -0.40 it is 89.60; a fixed discount of
150 on subtotal 100 clamps the base to 0; and a negative roundoff can make
the grand total negative. -/
theorem grandTotal_clamp_then_roundoff :
    (∀ s d r : ℚ, grandTotal s d r = max 0 (s - d) + r) ∧
    grandTotal 100 (discountAmount "10" DiscountType.percent 100)
        (roundoffAmount "-0.40") = 89.6 ∧
    max 0 ((100 : ℚ) - discountAmount "150" DiscountType.amount 100) = 0 ∧
    grandTotal 100 (discountAmount "150" DiscountType.amount 100)
        (roundoffAmount "-0.40") < 0 := by
  have t10 : ¬(jsTrim "10" = "") := by decide
  have t150 : ¬(jsTrim "150" = "") := by decide
  have t40 : ¬(jsTrim "-0.40" = "") := by decide
  have d10 : discountAmount "10" DiscountType.percent 100 = 10 := by
    rw [discountAmount, if_neg t10, if_pos rfl, jsNumOr0_ten]
    norm_num
  have d150 : discountAmount "150" DiscountType.amount 100 = 150 := by
    rw [discountAmount, if_neg t150, if_neg (by decide), jsNumOr0_oneFifty]
  have r40 : roundoffAmount "-0.40" = -(2/5 : ℚ) := by
    rw [roundoffAmount, if_neg t40]
    exact jsNumOr0_minusPointFour
  refine ⟨fun s d r => rfl, ?_, ?_, ?_⟩
  · rw [d10, r40, grandTotal]
    norm_num
  · rw [d150]
    norm_num
  · rw [d150, r40, grandTotal]
    norm_num

/-- C2: the subtotal sums quantity times parsed unit price over exactly the
lines whose product reference is truthy; a line without one contributes
nothing, and a list with no included line (the empty list in particular)
yields 0. -/
theorem subtotal_skips_productless_lines :
    subtotal [] = 0 ∧
    (∀ ls : List Line, subtotal ls = ((ls.filter lineIncluded).map lineValue).sum) ∧
    (∀ pre post : List Line, ∀ l : Line, lineIncluded l = false →
      subtotal (pre ++ l :: post) = subtotal (pre ++ post)) ∧
    (∀ ls : List Line, (∀ l ∈ ls, lineIncluded l = false) → subtotal ls = 0) := by
  refine ⟨rfl, subtotal_eq_sum, ?_, ?_⟩
  · intro pre post l h
    rw [subtotal_eq_sum, subtotal_eq_sum]
    simp [List.filter_append, List.filter_cons, h]
  · intro ls h
    rw [subtotal_eq_sum]
    have : ls.filter lineIncluded = [] := by
      simp only [List.filter_eq_nil_iff]
      intro a ha
      simp [h a ha]
    rw [this]
    simp

/-- Witness for C2 on concrete lines: a product-less line between two
included ones contributes nothing, and a list of only product-less lines has
subtotal 0. -/
theorem subtotal_skips_productless_lines_witness :
    lineIncluded lineNoRef = false ∧
    subtotal [lineP1, lineNoRef] = subtotal [lineP1] ∧
    subtotal [lineNoRef] = 0 := by
  refine ⟨rfl, ?_, ?_⟩
  · exact subtotal_skips_productless_lines.2.2.1 [lineP1] [] lineNoRef rfl
  · exact subtotal_skips_productless_lines.2.2.2 [lineNoRef]
      (by intro l hl; simp at hl; rw [hl]; rfl)

/-- C3: a blank or unparsable discount value yields discount amount 0 for
either discount type, and the grand total then coincides with the grand
total of the empty (omitted) discount field; the resolver is a total
function, so it throws on no input. -/
theorem discount_unparsable_is_zero (v : String) (ty : DiscountType) (s r : ℚ)
    (h : jsTrim v = "" ∨ jsParseFloat v = none) :
    discountAmount v ty s = 0 ∧
    grandTotal s (discountAmount v ty s) r
      = grandTotal s (discountAmount "" ty s) r := by
  have hz : discountAmount v ty s = 0 := by
    rcases h with h | h
    · rw [discountAmount, if_pos h]
    · by_cases ht : jsTrim v = ""
      · rw [discountAmount, if_pos ht]
      · rw [discountAmount, if_neg ht]
        have hv : jsNumOr0 v = 0 := by rw [jsNumOr0, h]; rfl
        by_cases hty : ty = DiscountType.percent
        · rw [if_pos hty, hv]
          ring
        · rw [if_neg hty]
          exact hv
  have he : discountAmount "" ty s = 0 := by
    rw [discountAmount, if_pos (by decide : jsTrim "" = "")]
  rw [hz, he]
  exact ⟨rfl, rfl⟩

/-- Witness for C3 at the unparsable value "abc" with a percent discount. -/
theorem discount_unparsable_is_zero_witness :
    (jsTrim "abc" = "" ∨ jsParseFloat "abc" = none) ∧
    discountAmount "abc" DiscountType.percent 100 = 0 ∧
    grandTotal 100 (discountAmount "abc" DiscountType.percent 100) 5
      = grandTotal 100 (discountAmount "" DiscountType.percent 100) 5 := by
  have h : jsTrim "abc" = "" ∨ jsParseFloat "abc" = none := Or.inr (by decide)
  exact ⟨h, (discount_unparsable_is_zero "abc" DiscountType.percent 100 5 h).1,
    (discount_unparsable_is_zero "abc" DiscountType.percent 100 5 h).2⟩

/-- C9: for non-negative quantities and prices the subtotal is invariant
under permutation of the lines (the non-negativity is not even needed, since
rational addition is commutative). -/
theorem subtotal_perm_invariant (ls ls2 : List Line)
    (_hnn : ∀ l ∈ ls, 0 ≤ l.quantity ∧ 0 ≤ jsNumOr0 (jsOrString l.unit_price "0"))
    (hp : ls.Perm ls2) :
    subtotal ls = subtotal ls2 := by
  rw [subtotal_eq_sum, subtotal_eq_sum]
  exact ((hp.filter lineIncluded).map lineValue).sum_eq

/-- Witness for C9 on a concrete two-line swap with non-negative data. -/
theorem subtotal_perm_invariant_witness :
    (∀ l ∈ [lineQ1, lineQ2],
       0 ≤ l.quantity ∧ 0 ≤ jsNumOr0 (jsOrString l.unit_price "0")) ∧
    subtotal [lineQ1, lineQ2] = subtotal [lineQ2, lineQ1] := by
  constructor
  · decide
  · exact subtotal_perm_invariant _ _ (by decide) (List.Perm.swap lineQ2 lineQ1 [])

/-- C4: `selectStore(B)` sets the in-memory current store to B, persists the
serialized B under the current-store key, and dispatches exactly one
`storeChanged` event carrying B, whatever was selected before. -/
theorem selectStore_persists_and_notifies_once (st : AppState) (B : Store) :
    (handleSetCurrentStore st (some B)).currentStore = some B ∧
    (handleSetCurrentStore st (some B)).storage.current_store
      = some (jsonStringifyStore B) ∧
    (handleSetCurrentStore st (some B)).events
      = st.events ++ [PageEvent.storeChanged (some B)] :=
  ⟨rfl, rfl, rfl⟩

/-- C7: a failing login throws the server-reported reason verbatim (the
error field of the response body, whenever the server supplies a non-empty
one) and, since the throw precedes every assignment, the caller's state —
memory and storage alike — is exactly what it was. -/
theorem login_failure_verbatim_and_frame (st : AppState) (body : LoginFailureBody)
    (m : String) (hm : body.error = some m) (hne : m ≠ "") :
    login st (LoginResponse.errResp body) = Except.error m ∧
    loginFinalState st (LoginResponse.errResp body) = st := by
  constructor
  · rw [login, loginErrorMessage, hm]
    show Except.error (if m = "" then "Login failed" else m) = Except.error m
    rw [if_neg hne]
  · rfl

/-- Witness for C7 at a concrete failing body. -/
theorem login_failure_verbatim_and_frame_witness :
    (LoginFailureBody.mk (some "Invalid credentials")).error
        = some "Invalid credentials" ∧
    "Invalid credentials" ≠ "" ∧
    login anonState (LoginResponse.errResp (LoginFailureBody.mk (some "Invalid credentials")))
      = Except.error "Invalid credentials" ∧
    loginFinalState anonState (LoginResponse.errResp (LoginFailureBody.mk (some "Invalid credentials")))
      = anonState := by
  refine ⟨rfl, by decide, ?_, ?_⟩
  · exact (login_failure_verbatim_and_frame anonState
      (LoginFailureBody.mk (some "Invalid credentials")) "Invalid credentials" rfl
      (by decide)).1
  · exact (login_failure_verbatim_and_frame anonState
      (LoginFailureBody.mk (some "Invalid credentials")) "Invalid credentials" rfl
      (by decide)).2

/-- C10: a successful login always writes the token and user keys; the
current-store key is written exactly when the user's profile carries a
store, and is never removed, so an earlier persisted selection survives the
login of a store-less user. -/
theorem login_success_storage_frame (st : AppState) (tok : String) (usr : User) :
    (loginFinalState st (LoginResponse.okResp tok usr)).storage.auth_token
        = some tok ∧
    (loginFinalState st (LoginResponse.okResp tok usr)).storage.auth_user
        = some (jsonStringifyUser usr) ∧
    (usr.store = none →
      (loginFinalState st (LoginResponse.okResp tok usr)).storage.current_store
        = st.storage.current_store) ∧
    (∀ s, usr.store = some s →
      (loginFinalState st (LoginResponse.okResp tok usr)).storage.current_store
        = some (jsonStringifyStore s)) := by
  refine ⟨rfl, rfl, ?_, ?_⟩
  · intro h
    simp [loginFinalState, login, h]
  · intro s h
    simp [loginFinalState, login, h]

/-- Witness for C10: a store-less user logging in over a pre-existing
current-store key leaves that key untouched, while a user with a profile
store gets it written. -/
theorem login_success_storage_frame_witness :
    userNoStore.store = none ∧
    (loginFinalState
        { anonState with storage := { emptyStorage with current_store := some "old" } }
        (LoginResponse.okResp "tk" userNoStore)).storage.current_store = some "old" ∧
    userWithStoreA.store = some storeA ∧
    (loginFinalState anonState
        (LoginResponse.okResp "tk" userWithStoreA)).storage.current_store
      = some (jsonStringifyStore storeA) := by
  refine ⟨rfl, ?_, rfl, ?_⟩
  · exact (login_success_storage_frame
      { anonState with storage := { emptyStorage with current_store := some "old" } }
      "tk" userNoStore).2.2.1 rfl
  · exact (login_success_storage_frame anonState "tk" userWithStoreA).2.2.2 storeA rfl

/-- Authenticated provider state whose user owns `storeA` and with no
current selection. -/
def c8State : AppState :=
  { user := some userWithStoreA, token := some "tk", currentStore := none
    availableStores := [], storage := emptyStorage, events := [] }

/-- C8 counterexample: `fetchAvailableStores` returns exactly one store and
none is selected, yet nothing is auto-selected, because the user's profile
store (id 5) is not the returned store (id 7). -/
theorem fetchStores_single_store_not_autoselected :
    c8State.currentStore = none ∧
    (fetchStoresOkUpdate c8State [storeB]).currentStore = none ∧
    (fetchStoresOkUpdate c8State [storeB]).storage.current_store = none := by
  refine ⟨rfl, ?_, ?_⟩ <;> decide

/-- C8 amended: with no store selected and exactly one store returned, that
store is auto-selected (in memory and in storage) when the user has no
profile store, or when the profile store's id matches it; when the profile
store's id differs from the only returned store, nothing is selected. -/
theorem fetchStores_single_store_autoselect (st : AppState) (s : Store)
    (hcur : st.currentStore = none) :
    (st.user.bind (fun u => u.store) = none →
      (fetchStoresOkUpdate st [s]).currentStore = some s ∧
      (fetchStoresOkUpdate st [s]).storage.current_store
        = some (jsonStringifyStore s)) ∧
    (∀ us : Store, st.user.bind (fun u => u.store) = some us → us.id = s.id →
      (fetchStoresOkUpdate st [s]).currentStore = some s ∧
      (fetchStoresOkUpdate st [s]).storage.current_store
        = some (jsonStringifyStore s)) ∧
    (∀ us : Store, st.user.bind (fun u => u.store) = some us → us.id ≠ s.id →
      (fetchStoresOkUpdate st [s]).currentStore = none) := by
  have hne : ([s] : List Store) ≠ [] := by simp
  refine ⟨?_, ?_, ?_⟩
  · intro h
    constructor <;> simp [fetchStoresOkUpdate, hcur, hne, h]
  · intro us h hid
    constructor <;>
      simp [fetchStoresOkUpdate, hcur, hne, h, List.find?, hid]
  · intro us h hid
    have hsym : ¬(s.id = us.id) := fun hh => hid hh.symm
    simp [fetchStoresOkUpdate, hcur, hne, h, List.find?, hsym]

/-- Witness for C8 amended: a store-less user gets the single returned store
selected and persisted. -/
theorem fetchStores_single_store_autoselect_witness :
    (fetchStoresOkUpdate
        { anonState with user := some userNoStore, token := some "tk" }
        [storeB]).currentStore = some storeB ∧
    (fetchStoresOkUpdate
        { anonState with user := some userNoStore, token := some "tk" }
        [storeB]).storage.current_store = some (jsonStringifyStore storeB) :=
  (fetchStores_single_store_autoselect
    { anonState with user := some userNoStore, token := some "tk" }
    storeB rfl).1 rfl

/-- C6 counterexample: with a truthy stored token and a malformed stored
user, the mount effect propagates the `JSON.parse` exception instead of
leaving the session anonymous. -/
theorem rehydrate_malformed_user_raises :
    rehydrate { auth_token := some "tok", auth_user := some "oops"
                current_store := none }
      = Except.error () := rfl

/-- C6 amended: a falsy stored token or user leaves the session anonymous;
with both truthy, the stored user JSON must parse (a malformed one raises),
and with no truthy stored store the user's `store` field is read — an
access that itself raises a TypeError when the parsed user is `null`;
otherwise the session is restored with the stored store JSON when its key
is truthy (which must then parse), else with the user's truthy store
field. -/
theorem rehydrate_amended_behavior :
    (∀ sto : Storage, sto.auth_token = none ∨ sto.auth_user = none ∨
        sto.auth_token = some "" ∨ sto.auth_user = some "" →
        rehydrate sto = Except.ok anonymousSession) ∧
    (∀ tok usr : String, ∀ uj : JsVal, ∀ sj : Option JsVal,
        tok ≠ "" → usr ≠ "" →
        parseJson usr = some uj → userStoreField uj = Except.ok sj →
        rehydrate { auth_token := some tok, auth_user := some usr
                    current_store := none }
          = Except.ok { token := some tok, userJson := some uj
                        storeJson := sj }) ∧
    (∀ tok usr : String, tok ≠ "" → usr ≠ "" →
        parseJson usr = some JsVal.null →
        rehydrate { auth_token := some tok, auth_user := some usr
                    current_store := none }
          = Except.error ()) ∧
    (∀ tok usr ss : String, ∀ uj sj : JsVal, tok ≠ "" → usr ≠ "" → ss ≠ "" →
        parseJson usr = some uj → parseJson ss = some sj →
        rehydrate { auth_token := some tok, auth_user := some usr
                    current_store := some ss }
          = Except.ok { token := some tok, userJson := some uj
                        storeJson := some sj }) ∧
    (∀ tok usr : String, ∀ cs : Option String, tok ≠ "" → usr ≠ "" →
        parseJson usr = none →
        rehydrate { auth_token := some tok, auth_user := some usr
                    current_store := cs }
          = Except.error ()) := by
  refine ⟨?_, ?_, ?_, ?_, ?_⟩
  · intro sto h
    obtain ⟨t, u, c⟩ := sto
    rcases h with h | h | h | h <;> simp only at h <;> subst h
    · rfl
    · cases t <;> rfl
    · cases u with
      | none => rfl
      | some usr => simp [rehydrate]
    · cases t with
      | none => rfl
      | some tok => simp [rehydrate]
  · intro tok usr uj sj htok husr hp hsf
    simp [rehydrate, htok, husr, hp, hsf]
  · intro tok usr htok husr hp
    simp [rehydrate, htok, husr, hp, userStoreField, jsMember]
  · intro tok usr ss uj sj htok husr hss hp hps
    simp [rehydrate, htok, husr, hss, hp, hps]
  · intro tok usr cs htok husr hp
    simp [rehydrate, htok, husr, hp]

/-- The JSON value of the serialized `storeA`. -/
def storeAJsonVal : JsVal :=
  JsVal.obj [("id", JsVal.num (mkRat 5 1)), ("name", JsVal.str "Main"),
    ("code", JsVal.str "MAIN"), ("organization_id", JsVal.num (mkRat 1 1))]

/-- Witness for C6 amended: a persisted token, user and serialized store are
restored verbatim; without a stored store the user's null store field is
skipped; and the stored user string "null" parses but its store access
raises the TypeError. -/
theorem rehydrate_amended_behavior_witness :
    parseJson "\x7b\"store\":null\x7d" = some (JsVal.obj [("store", JsVal.null)]) ∧
    parseJson (jsonStringifyStore storeA) = some storeAJsonVal ∧
    rehydrate { auth_token := some "t", auth_user := some "\x7b\"store\":null\x7d"
                current_store := some (jsonStringifyStore storeA) }
      = Except.ok { token := some "t"
                    userJson := some (JsVal.obj [("store", JsVal.null)])
                    storeJson := some storeAJsonVal } ∧
    userStoreField (JsVal.obj [("store", JsVal.null)]) = Except.ok none ∧
    rehydrate { auth_token := some "t", auth_user := some "\x7b\"store\":null\x7d"
                current_store := none }
      = Except.ok { token := some "t"
                    userJson := some (JsVal.obj [("store", JsVal.null)])
                    storeJson := none } ∧
    parseJson "null" = some JsVal.null ∧
    rehydrate { auth_token := some "t", auth_user := some "null"
                current_store := none }
      = Except.error () := by
  refine ⟨rfl, rfl, ?_, rfl, ?_, rfl, ?_⟩
  · exact rehydrate_amended_behavior.2.2.2.1 "t" "\x7b\"store\":null\x7d"
      (jsonStringifyStore storeA) (JsVal.obj [("store", JsVal.null)]) storeAJsonVal
      (by decide) (by decide) (by decide) rfl rfl
  · exact rehydrate_amended_behavior.2.1 "t" "\x7b\"store\":null\x7d"
      (JsVal.obj [("store", JsVal.null)]) none
      (by decide) (by decide) rfl rfl
  · exact rehydrate_amended_behavior.2.2.1 "t" "null"
      (by decide) (by decide) rfl

/-- C5 counterexample: the api client's `listProducts` request carries no
Authorization header at all — its final headers hold only the content type. -/
theorem apiClient_request_has_no_bearer :
    (requestHeaders listProductsOptions).lookup "Authorization" = none ∧
    requestHeaders listProductsOptions = [("Content-Type", "application/json")] :=
  ⟨rfl, rfl⟩

/-- C5 amended: a request of the shared api client carries an Authorization
header only if the caller passes one — no api method does — while the
session layer's `fetchAvailableStores` fetch does carry the bearer token. -/
theorem bearer_only_on_session_layer_fetch (options : RequestOptions) (tok : String)
    (h : options.headers = none) :
    (requestHeaders options).lookup "Authorization" = none ∧
    (fetchAvailableStoresHeaders tok).lookup "Authorization"
      = some ("Bearer " ++ tok) := by
  constructor
  · rw [requestHeaders, h]
    rfl
  · rfl

/-- Witness for C5 amended at the listProducts options and the token "t". -/
theorem bearer_only_on_session_layer_fetch_witness :
    listProductsOptions.headers = none ∧
    (requestHeaders listProductsOptions).lookup "Authorization" = none ∧
    (fetchAvailableStoresHeaders "t").lookup "Authorization" = some "Bearer t" :=
  ⟨rfl, (bearer_only_on_session_layer_fetch listProductsOptions "t" rfl).1,
    (bearer_only_on_session_layer_fetch listProductsOptions "t" rfl).2⟩
